import Mathlib

/-!
Shallow embedding of the EmbeddedFS facade (filesys.h, LittleFSImpl.cpp,
FatFSImpl.cpp).  The two backend libraries (littlefs and FatFS) are external
collaborators: their behavior is abstracted by passing each native call's
result as an explicit argument, and every operation additionally returns the
list of native calls it performed, so that "the adapter did not touch backend
state" is expressible as an empty call trace.  Paths, buffers and file
contents are abstracted away; they play no role in the verified properties.
-/

namespace EmbeddedFS

/-- Portable result codes, source `FSResult` in filesys.h.  Constructor names
are camel-cased versions of the source's `ERROR_*` enumerators:
`ioError` is `ERROR_IO`, `noEnt` is `ERROR_NO_ENT`, `badFile` is
`ERROR_BAD_FILE`, `invalid` is `ERROR_INVALID`, `notMounted` is
`ERROR_NOT_MOUNTED`, and so on. -/
inductive FSResult where
  | OK
  | ioError
  | corrupt
  | noEnt
  | exist
  | notDir
  | isDir
  | noEmpty
  | badFile
  | fbBig
  | noSpc
  | noMem
  | invalid
  | notMounted
  | notSupported
deriving DecidableEq, Repr

/-- Source `OpenMode::READ` (filesys.h); the portable open-intent bitset is a
`uint8_t`, modelled as a `Nat` below 256. -/
def OpenMode.READ : Nat := 0x01

/-- Source `OpenMode::WRITE` (filesys.h). -/
def OpenMode.WRITE : Nat := 0x02

/-- Source `OpenMode::CREATE` (filesys.h). -/
def OpenMode.CREATE : Nat := 0x04

/-- Source `OpenMode::EXCL` (filesys.h). -/
def OpenMode.EXCL : Nat := 0x08

/-- Source `OpenMode::TRUNC` (filesys.h). -/
def OpenMode.TRUNC : Nat := 0x10

/-- Source `OpenMode::APPEND` (filesys.h). -/
def OpenMode.APPEND : Nat := 0x20

/-- Source `SeekOrigin` (filesys.h). -/
inductive SeekOrigin where
  | SET
  | CUR
  | END
deriving DecidableEq, Repr

/-- Modelled from the spec: the littlefs header `lfs.h` (an external backend
library, not under src/) defines the native open flags `LFS_O_RDONLY`,
`LFS_O_WRONLY`, `LFS_O_RDWR`, `LFS_O_CREAT`, `LFS_O_EXCL`, `LFS_O_TRUNC`,
`LFS_O_APPEND`.  Following the spec they are independent combinable bits with
`LFS_O_RDWR` the union of read-only and write-only; the translator must be
exact and lossless across its byte-wide return, so the bits are modelled
inside one byte. -/
def LFS_O_RDONLY : Nat := 1

/-- Native littlefs write-only flag, see `LFS_O_RDONLY`. -/
def LFS_O_WRONLY : Nat := 2

/-- Native littlefs read-write flag, see `LFS_O_RDONLY`. -/
def LFS_O_RDWR : Nat := 3

/-- Native littlefs create flag (create the file if it does not exist; an
existing file is NOT truncated by this flag alone), see `LFS_O_RDONLY`. -/
def LFS_O_CREAT : Nat := 4

/-- Native littlefs exclusive flag (with create: the open must fail if the
file already exists), see `LFS_O_RDONLY`. -/
def LFS_O_EXCL : Nat := 8

/-- Native littlefs truncate flag (truncate an existing file to zero size on
open), see `LFS_O_RDONLY`. -/
def LFS_O_TRUNC : Nat := 16

/-- Native littlefs append flag, see `LFS_O_RDONLY`. -/
def LFS_O_APPEND : Nat := 32

/-- Native FatFS open mode `FA_READ` (`ff.h`, external backend library). -/
def FA_READ : Nat := 0x01

/-- Native FatFS open mode `FA_WRITE`. -/
def FA_WRITE : Nat := 0x02

/-- Native FatFS open mode `FA_OPEN_EXISTING` (open only if the file
exists). -/
def FA_OPEN_EXISTING : Nat := 0x00

/-- Native FatFS open mode `FA_CREATE_NEW` (create; the open fails if the
file already exists — the native exclusive-create mode). -/
def FA_CREATE_NEW : Nat := 0x04

/-- Native FatFS open mode `FA_CREATE_ALWAYS` (create; an existing file is
truncated and overwritten — the native create-or-truncate-existing mode). -/
def FA_CREATE_ALWAYS : Nat := 0x08

/-- Native FatFS open mode `FA_OPEN_ALWAYS` (open, creating if absent,
without truncation). -/
def FA_OPEN_ALWAYS : Nat := 0x10

/-- Native FatFS open mode `FA_OPEN_APPEND`. -/
def FA_OPEN_APPEND : Nat := 0x30

/-- Modelled from the spec: per the FatFS interface boundary, a native open
mode truncates a pre-existing file exactly when it carries the
create-or-truncate-existing mode `FA_CREATE_ALWAYS`. -/
def fatModeTruncatesExisting (m : Nat) : Bool := m &&& FA_CREATE_ALWAYS != 0

/-- Modelled from the spec: per the littlefs interface boundary, a native
open-flag set truncates a pre-existing file exactly when it carries
`LFS_O_TRUNC`. -/
def lfsModeTruncatesExisting (m : Nat) : Bool := m &&& LFS_O_TRUNC != 0

/-- Source `LittleFSImpl::convert_open_mode` (LittleFSImpl.cpp, 401-445):
translate the portable open-intent bitset into native littlefs open flags. -/
def LittleFSImpl.convert_open_mode (mode : Nat) : Nat :=
  let mode_bits := mode % 256
  let read_flag := mode_bits &&& OpenMode.READ != 0
  let write_flag := mode_bits &&& OpenMode.WRITE != 0
  let create_flag := mode_bits &&& OpenMode.CREATE != 0
  let trunc_flag := mode_bits &&& OpenMode.TRUNC != 0
  let append_flag := mode_bits &&& OpenMode.APPEND != 0
  let excl_flag := mode_bits &&& OpenMode.EXCL != 0
  let lfs_flags := if read_flag then LFS_O_RDONLY else 0
  let lfs_flags :=
    if write_flag then
      if read_flag then (lfs_flags &&& (255 - LFS_O_RDONLY)) ||| LFS_O_RDWR
      else lfs_flags ||| LFS_O_WRONLY
    else lfs_flags
  let lfs_flags :=
    if create_flag then
      if excl_flag then lfs_flags ||| LFS_O_CREAT ||| LFS_O_EXCL
      else lfs_flags ||| LFS_O_CREAT
    else lfs_flags
  let lfs_flags := if trunc_flag then lfs_flags ||| LFS_O_TRUNC else lfs_flags
  let lfs_flags := if append_flag then lfs_flags ||| LFS_O_APPEND else lfs_flags
  lfs_flags % 256

/-- Source `FatFSImpl::convert_open_mode` (FatFSImpl.cpp, 417-456):
translate the portable open-intent bitset into a native FatFS mode byte.
The source computes a `trunc_flag` but never uses it (its own comment says
truncation is not supported in the FatFS open mode). -/
def FatFSImpl.convert_open_mode (mode : Nat) : Nat :=
  let mode_bits := mode % 256
  let read_flag := mode_bits &&& OpenMode.READ != 0
  let write_flag := mode_bits &&& OpenMode.WRITE != 0
  let create_flag := mode_bits &&& OpenMode.CREATE != 0
  let append_flag := mode_bits &&& OpenMode.APPEND != 0
  let excl_flag := mode_bits &&& OpenMode.EXCL != 0
  let fat_mode :=
    if read_flag && !write_flag then FA_READ
    else if write_flag && !read_flag then FA_WRITE
    else if read_flag && write_flag then FA_READ ||| FA_WRITE
    else 0
  let fat_mode :=
    if create_flag then
      if excl_flag then fat_mode ||| FA_CREATE_NEW
      else fat_mode ||| FA_CREATE_ALWAYS
    else if write_flag then fat_mode ||| FA_OPEN_EXISTING
    else fat_mode
  let fat_mode := if append_flag then fat_mode ||| FA_OPEN_APPEND else fat_mode
  fat_mode

/-- Native littlefs status `LFS_ERR_OK` (`lfs.h`, external backend library;
littlefs reports status as a signed integer, negative on failure). -/
def LFS_ERR_OK : Int := 0

/-- Native littlefs status for a device-level input/output failure. -/
def LFS_ERR_IO_c : Int := -5

/-- Native littlefs status for on-disk structural corruption. -/
def LFS_ERR_CORRUPT : Int := -84

/-- Native littlefs status: no such entry. -/
def LFS_ERR_NOENT : Int := -2

/-- Native littlefs status: entry already exists. -/
def LFS_ERR_EXIST : Int := -17

/-- Native littlefs status: not a directory. -/
def LFS_ERR_NOTDIR : Int := -20

/-- Native littlefs status: is a directory. -/
def LFS_ERR_ISDIR : Int := -21

/-- Native littlefs status: directory not empty. -/
def LFS_ERR_NOTEMPTY : Int := -39

/-- Native littlefs status: bad file number. -/
def LFS_ERR_BADF : Int := -9

/-- Native littlefs status: file too large. -/
def LFS_ERR_FBIG : Int := -27

/-- Native littlefs status: no space left on device. -/
def LFS_ERR_NOSPC : Int := -28

/-- Native littlefs status: out of memory. -/
def LFS_ERR_NOMEM : Int := -12

/-- Native littlefs status: invalid parameter. -/
def LFS_ERR_INVAL : Int := -22

/-- Source `LittleFSImpl::convert_lfs_error` (LittleFSImpl.cpp, 381-398):
total translation of native littlefs status codes into `FSResult`; the
switch's default arm sends every unmapped code to `ERROR_IO`. -/
def LittleFSImpl.convert_lfs_error (lfs_error : Int) : FSResult :=
  if lfs_error = LFS_ERR_OK then .OK
  else if lfs_error = LFS_ERR_IO_c then .ioError
  else if lfs_error = LFS_ERR_CORRUPT then .corrupt
  else if lfs_error = LFS_ERR_NOENT then .noEnt
  else if lfs_error = LFS_ERR_EXIST then .exist
  else if lfs_error = LFS_ERR_NOTDIR then .notDir
  else if lfs_error = LFS_ERR_ISDIR then .isDir
  else if lfs_error = LFS_ERR_NOTEMPTY then .noEmpty
  else if lfs_error = LFS_ERR_BADF then .badFile
  else if lfs_error = LFS_ERR_FBIG then .fbBig
  else if lfs_error = LFS_ERR_NOSPC then .noSpc
  else if lfs_error = LFS_ERR_NOMEM then .noMem
  else if lfs_error = LFS_ERR_INVAL then .invalid
  else .ioError

/-- Native FatFS status enumeration `FRESULT` (`ff.h`, external backend
library): a closed enumeration of exactly these twenty codes. -/
inductive FRESULT where
  | FR_OK
  | FR_DISK_ERR
  | FR_INT_ERR
  | FR_NOT_READY
  | FR_NO_FILE
  | FR_NO_PATH
  | FR_INVALID_NAME
  | FR_DENIED
  | FR_EXIST
  | FR_INVALID_OBJECT
  | FR_WRITE_PROTECTED
  | FR_INVALID_DRIVE
  | FR_NOT_ENABLED
  | FR_NO_FILESYSTEM
  | FR_MKFS_ABORTED
  | FR_TIMEOUT
  | FR_LOCKED
  | FR_NOT_ENOUGH_CORE
  | FR_TOO_MANY_OPEN_FILES
  | FR_INVALID_PARAMETER
deriving DecidableEq, Repr, Fintype

/-- Source `FatFSImpl::convert_fatfs_error` (FatFSImpl.cpp, 390-414): total
translation of native FatFS status codes into `FSResult`.  Every one of the
twenty `FRESULT` codes is listed explicitly in the source switch, so the
default arm (`ERROR_IO`) absorbs nothing. -/
def FatFSImpl.convert_fatfs_error : FRESULT → FSResult
  | .FR_OK => .OK
  | .FR_DISK_ERR => .ioError
  | .FR_INT_ERR => .corrupt
  | .FR_NOT_READY => .ioError
  | .FR_NO_FILE => .noEnt
  | .FR_NO_PATH => .noEnt
  | .FR_INVALID_NAME => .invalid
  | .FR_DENIED => .invalid
  | .FR_EXIST => .exist
  | .FR_INVALID_OBJECT => .badFile
  | .FR_WRITE_PROTECTED => .invalid
  | .FR_INVALID_DRIVE => .notMounted
  | .FR_NOT_ENABLED => .notMounted
  | .FR_NO_FILESYSTEM => .corrupt
  | .FR_MKFS_ABORTED => .ioError
  | .FR_TIMEOUT => .ioError
  | .FR_LOCKED => .invalid
  | .FR_NOT_ENOUGH_CORE => .noMem
  | .FR_TOO_MANY_OPEN_FILES => .noMem
  | .FR_INVALID_PARAMETER => .invalid

/-- Trace of native backend-library calls performed by one adapter
operation.  A call that matters to a verified property carries its decisive
argument (`fLseekCall` carries its absolute target position). -/
inductive NativeCall where
  | lfsMountCall
  | lfsFormatCall
  | lfsUnmountCall
  | lfsFileOpenCall (flags : Nat)
  | lfsFileCloseCall
  | lfsFileReadCall
  | lfsFileWriteCall
  | lfsFileSeekCall (whence : Nat)
  | lfsFileTellCall
  | lfsFileSyncCall
  | lfsFileTruncateCall (size : Nat)
  | lfsRemoveCall
  | lfsRenameCall
  | lfsStatCall
  | lfsMkdirCall
  | lfsDirOpenCall
  | lfsDirCloseCall
  | lfsDirReadCall
  | lfsDirRewindCall
  | lfsFsSizeCall
  | fMountCall
  | fUnmountCall
  | fOpenCall (mode : Nat)
  | fCloseCall
  | fReadCall
  | fWriteCall
  | fLseekCall (target : Nat)
  | fTellCall
  | fSyncCall
  | fTruncateCall
  | fOpendirCall
  | fClosedirCall
  | fReaddirCall
  | fRewinddirCall
deriving DecidableEq, Repr

/-- Source `FileHandle` (filesys.h): open flag plus the owning-adapter
identity `fs_impl`.  The C++ field is a pointer to the adapter instance;
instances are modelled by a numeric identity (distinct instances have
distinct identities, as distinct live objects have distinct addresses), with
`none` for the null pointer.  The backend-native union payload is abstracted
away. -/
structure FileHandle where
  is_open : Bool
  fs_impl : Option Nat
deriving DecidableEq, Repr

/-- Source `DirHandle` (filesys.h): same validation fields as `FileHandle`. -/
structure DirHandle where
  is_open : Bool
  fs_impl : Option Nat
deriving DecidableEq, Repr

/-- Source `lfs_config_t` as the facade touches it (`LittleFSImpl` reads only
`block_count` and `block_size`; the callbacks and buffers are opaque to the
adapter). -/
structure LfsConfig where
  block_count : Nat
  block_size : Nat
deriving DecidableEq, Repr

/-- State of a `LittleFSImpl` adapter instance: its identity (the `this`
pointer), the configuration pointer `config_` (`none` models null) and the
`mounted_` flag. -/
structure LfsState where
  self : Nat
  config : Option LfsConfig
  mounted : Bool
deriving DecidableEq, Repr

/-- State of a `FatFSImpl` adapter instance: its identity (the `this`
pointer) and the `mounted_` flag; the drive-path string plays no role in the
verified properties. -/
structure FatState where
  self : Nat
  mounted : Bool
deriving DecidableEq, Repr

/-- Source `LittleFSImpl::mount` (LittleFSImpl.cpp, 26-54).  The results the
backend would return for the initial `lfs_mount`, for `lfs_format`, and for
the retried `lfs_mount` are supplied as `mountRes`, `formatRes`,
`remountRes`.  Returns the portable result, the successor adapter state and
the native-call trace. -/
def LittleFSImpl.mount (st : LfsState) (mountRes formatRes remountRes : Int) :
    FSResult × LfsState × List NativeCall :=
  if st.mounted then (.OK, st, [])
  else if st.config = none then (.invalid, st, [])
  else if mountRes = LFS_ERR_OK then (.OK, { st with mounted := true }, [.lfsMountCall])
  else if mountRes = LFS_ERR_CORRUPT then
    if formatRes = LFS_ERR_OK then
      if remountRes = LFS_ERR_OK then
        (.OK, { st with mounted := true }, [.lfsMountCall, .lfsFormatCall, .lfsMountCall])
      else
        (LittleFSImpl.convert_lfs_error remountRes, st,
          [.lfsMountCall, .lfsFormatCall, .lfsMountCall])
    else (LittleFSImpl.convert_lfs_error formatRes, st, [.lfsMountCall, .lfsFormatCall])
  else (LittleFSImpl.convert_lfs_error mountRes, st, [.lfsMountCall])

/-- Source `LittleFSImpl::unmount` (LittleFSImpl.cpp, 57-66). -/
def LittleFSImpl.unmount (st : LfsState) (unmountRes : Int) :
    FSResult × LfsState × List NativeCall :=
  if st.mounted = false then (.OK, st, [])
  else (LittleFSImpl.convert_lfs_error unmountRes, { st with mounted := false },
    [.lfsUnmountCall])

/-- Source `LittleFSImpl::open` (LittleFSImpl.cpp, 69-88); `openRes` is the
result `lfs_file_open` would return. -/
def LittleFSImpl.open (st : LfsState) (h : FileHandle) (mode : Nat) (openRes : Int) :
    FSResult × FileHandle × List NativeCall :=
  if st.mounted = false then (.notMounted, h, [])
  else if h.is_open then (.badFile, h, [])
  else if openRes = LFS_ERR_OK then
    (.OK, { is_open := true, fs_impl := some st.self },
      [.lfsFileOpenCall (LittleFSImpl.convert_open_mode mode)])
  else (LittleFSImpl.convert_lfs_error openRes, h,
    [.lfsFileOpenCall (LittleFSImpl.convert_open_mode mode)])

/-- Source `LittleFSImpl::close` (LittleFSImpl.cpp, 91-101): validate, close
natively, then clear the handle unconditionally and surface the translated
native result. -/
def LittleFSImpl.close (st : LfsState) (h : FileHandle) (closeRes : Int) :
    FSResult × FileHandle × List NativeCall :=
  if h.is_open = false ∨ h.fs_impl ≠ some st.self then (.badFile, h, [])
  else (LittleFSImpl.convert_lfs_error closeRes,
    { is_open := false, fs_impl := none }, [.lfsFileCloseCall])

/-- Source `LittleFSImpl::read` (LittleFSImpl.cpp, 104-118); `readRes` is the
signed count/status `lfs_file_read` would return.  The third component is
the `bytes_read` out-parameter, `none` when the source leaves it untouched. -/
def LittleFSImpl.read (st : LfsState) (h : FileHandle) (readRes : Int) :
    FSResult × FileHandle × Option Nat × List NativeCall :=
  if h.is_open = false ∨ h.fs_impl ≠ some st.self then (.badFile, h, none, [])
  else if readRes ≥ 0 then (.OK, h, some readRes.toNat, [.lfsFileReadCall])
  else (LittleFSImpl.convert_lfs_error readRes, h, some 0, [.lfsFileReadCall])

/-- Source `LittleFSImpl::write` (LittleFSImpl.cpp, 121-135). -/
def LittleFSImpl.write (st : LfsState) (h : FileHandle) (writeRes : Int) :
    FSResult × FileHandle × Option Nat × List NativeCall :=
  if h.is_open = false ∨ h.fs_impl ≠ some st.self then (.badFile, h, none, [])
  else if writeRes ≥ 0 then (.OK, h, some writeRes.toNat, [.lfsFileWriteCall])
  else (LittleFSImpl.convert_lfs_error writeRes, h, some 0, [.lfsFileWriteCall])

/-- Source `LFS_SEEK_SET` whence code. -/
def LFS_SEEK_SET : Nat := 0

/-- Source `LFS_SEEK_CUR` whence code. -/
def LFS_SEEK_CUR : Nat := 1

/-- Source `LFS_SEEK_END` whence code. -/
def LFS_SEEK_END : Nat := 2

/-- Source `LittleFSImpl::seek` (LittleFSImpl.cpp, 138-165); littlefs
exposes all three origins natively, so the adapter only maps the origin to
the native whence code.  `seekRes` is the signed position/status
`lfs_file_seek` would return. -/
def LittleFSImpl.seek (st : LfsState) (h : FileHandle) (origin : SeekOrigin)
    (seekRes : Int) : FSResult × List NativeCall :=
  if h.is_open = false ∨ h.fs_impl ≠ some st.self then (.badFile, [])
  else
    let whence := match origin with
      | .SET => LFS_SEEK_SET
      | .CUR => LFS_SEEK_CUR
      | .END => LFS_SEEK_END
    if seekRes ≥ 0 then (.OK, [.lfsFileSeekCall whence])
    else (LittleFSImpl.convert_lfs_error seekRes, [.lfsFileSeekCall whence])

/-- Source `LittleFSImpl::tell` (LittleFSImpl.cpp, 168-181); the second
component is the `position` out-parameter, `none` when left untouched. -/
def LittleFSImpl.tell (st : LfsState) (h : FileHandle) (tellRes : Int) :
    FSResult × Option Nat × List NativeCall :=
  if h.is_open = false ∨ h.fs_impl ≠ some st.self then (.badFile, none, [])
  else if tellRes ≥ 0 then (.OK, some tellRes.toNat, [.lfsFileTellCall])
  else (LittleFSImpl.convert_lfs_error tellRes, none, [.lfsFileTellCall])

/-- Source `LittleFSImpl::sync` (LittleFSImpl.cpp, 184-191). -/
def LittleFSImpl.sync (st : LfsState) (h : FileHandle) (syncRes : Int) :
    FSResult × List NativeCall :=
  if h.is_open = false ∨ h.fs_impl ≠ some st.self then (.badFile, [])
  else (LittleFSImpl.convert_lfs_error syncRes, [.lfsFileSyncCall])

/-- Source `LittleFSImpl::truncate` (LittleFSImpl.cpp, 194-201). -/
def LittleFSImpl.truncate (st : LfsState) (h : FileHandle) (size : Nat)
    (truncRes : Int) : FSResult × List NativeCall :=
  if h.is_open = false ∨ h.fs_impl ≠ some st.self then (.badFile, [])
  else (LittleFSImpl.convert_lfs_error truncRes, [.lfsFileTruncateCall size])

/-- Source `LittleFSImpl::remove` (LittleFSImpl.cpp, 204-211). -/
def LittleFSImpl.remove (st : LfsState) (removeRes : Int) :
    FSResult × List NativeCall :=
  if st.mounted = false then (.notMounted, [])
  else (LittleFSImpl.convert_lfs_error removeRes, [.lfsRemoveCall])

/-- Source `LittleFSImpl::rename` (LittleFSImpl.cpp, 214-221). -/
def LittleFSImpl.rename (st : LfsState) (renameRes : Int) :
    FSResult × List NativeCall :=
  if st.mounted = false then (.notMounted, [])
  else (LittleFSImpl.convert_lfs_error renameRes, [.lfsRenameCall])

/-- Source `LittleFSImpl::stat` (LittleFSImpl.cpp, 224-255); the produced
`FileInfo` contents are abstracted away. -/
def LittleFSImpl.stat (st : LfsState) (statRes : Int) :
    FSResult × List NativeCall :=
  if st.mounted = false then (.notMounted, [])
  else (LittleFSImpl.convert_lfs_error statRes, [.lfsStatCall])

/-- Source `LittleFSImpl::mkdir` (LittleFSImpl.cpp, 258-265). -/
def LittleFSImpl.mkdir (st : LfsState) (mkdirRes : Int) :
    FSResult × List NativeCall :=
  if st.mounted = false then (.notMounted, [])
  else (LittleFSImpl.convert_lfs_error mkdirRes, [.lfsMkdirCall])

/-- Source `LittleFSImpl::rmdir` (LittleFSImpl.cpp, 268-276): littlefs
removes directories through the same `lfs_remove` entry point. -/
def LittleFSImpl.rmdir (st : LfsState) (removeRes : Int) :
    FSResult × List NativeCall :=
  if st.mounted = false then (.notMounted, [])
  else (LittleFSImpl.convert_lfs_error removeRes, [.lfsRemoveCall])

/-- Source `LittleFSImpl::opendir` (LittleFSImpl.cpp, 279-297). -/
def LittleFSImpl.opendir (st : LfsState) (d : DirHandle) (openRes : Int) :
    FSResult × DirHandle × List NativeCall :=
  if st.mounted = false then (.notMounted, d, [])
  else if d.is_open then (.badFile, d, [])
  else if openRes = LFS_ERR_OK then
    (.OK, { is_open := true, fs_impl := some st.self }, [.lfsDirOpenCall])
  else (LittleFSImpl.convert_lfs_error openRes, d, [.lfsDirOpenCall])

/-- Source `LittleFSImpl::closedir` (LittleFSImpl.cpp, 300-310): validate,
close natively, clear the handle unconditionally, surface the translated
result. -/
def LittleFSImpl.closedir (st : LfsState) (d : DirHandle) (closeRes : Int) :
    FSResult × DirHandle × List NativeCall :=
  if d.is_open = false ∨ d.fs_impl ≠ some st.self then (.badFile, d, [])
  else (LittleFSImpl.convert_lfs_error closeRes,
    { is_open := false, fs_impl := none }, [.lfsDirCloseCall])

/-- Source `LittleFSImpl::readdir` (LittleFSImpl.cpp, 313-339); `readRes` is
the signed status `lfs_dir_read` would return (positive: an entry was read;
zero: end of directory, signalled by the empty-name sentinel; negative:
error).  Entry contents are abstracted away. -/
def LittleFSImpl.readdir (st : LfsState) (d : DirHandle) (readRes : Int) :
    FSResult × List NativeCall :=
  if d.is_open = false ∨ d.fs_impl ≠ some st.self then (.badFile, [])
  else if readRes > 0 then (.OK, [.lfsDirReadCall])
  else if readRes = 0 then (.OK, [.lfsDirReadCall])
  else (LittleFSImpl.convert_lfs_error readRes, [.lfsDirReadCall])

/-- Source `LittleFSImpl::rewinddir` (LittleFSImpl.cpp, 342-349). -/
def LittleFSImpl.rewinddir (st : LfsState) (d : DirHandle) (rewindRes : Int) :
    FSResult × List NativeCall :=
  if d.is_open = false ∨ d.fs_impl ≠ some st.self then (.badFile, [])
  else (LittleFSImpl.convert_lfs_error rewindRes, [.lfsDirRewindCall])

/-- Source `LittleFSImpl::get_free_space` (LittleFSImpl.cpp, 352-368).  The
source dereferences `config_` after the mounted check; the outer `Option` is
`none` exactly when that dereference would hit a null configuration
(undefined behavior), so `some` means the operation completes without
crashing.  `fsSizeRes` is the signed used-block count/status `lfs_fs_size`
would return; the inner `Option Nat` is the `free_bytes` out-parameter. -/
def LittleFSImpl.get_free_space (st : LfsState) (fsSizeRes : Int) :
    Option (FSResult × Option Nat × List NativeCall) :=
  if st.mounted = false then some (.notMounted, none, [])
  else match st.config with
    | none => none
    | some c =>
      if fsSizeRes ≥ 0 then
        let used_blocks := fsSizeRes.toNat
        let free_blocks := if c.block_count > used_blocks then c.block_count - used_blocks else 0
        some (.OK, some (free_blocks * c.block_size), [.lfsFsSizeCall])
      else some (LittleFSImpl.convert_lfs_error fsSizeRes, none, [.lfsFsSizeCall])

/-- Source `LittleFSImpl::get_total_space` (LittleFSImpl.cpp, 371-378); the
outer `Option` is as in `LittleFSImpl.get_free_space`. -/
def LittleFSImpl.get_total_space (st : LfsState) :
    Option (FSResult × Option Nat × List NativeCall) :=
  if st.mounted = false then some (.notMounted, none, [])
  else match st.config with
    | none => none
    | some c => some (.OK, some (c.block_count * c.block_size), [])

/-- Source `FatFSImpl::mount` (FatFSImpl.cpp, 28-40): a single forced native
mount, no reformat attempt; `mountRes` is the `f_mount` result. -/
def FatFSImpl.mount (st : FatState) (mountRes : FRESULT) :
    FSResult × FatState × List NativeCall :=
  if st.mounted then (.OK, st, [])
  else if mountRes = .FR_OK then (.OK, { st with mounted := true }, [.fMountCall])
  else (FatFSImpl.convert_fatfs_error mountRes, st, [.fMountCall])

/-- Source `FatFSImpl::unmount` (FatFSImpl.cpp, 43-52). -/
def FatFSImpl.unmount (st : FatState) (unmountRes : FRESULT) :
    FSResult × FatState × List NativeCall :=
  if st.mounted = false then (.OK, st, [])
  else (FatFSImpl.convert_fatfs_error unmountRes, { st with mounted := false },
    [.fUnmountCall])

/-- Source `FatFSImpl::open` (FatFSImpl.cpp, 55-74). -/
def FatFSImpl.open (st : FatState) (h : FileHandle) (mode : Nat) (openRes : FRESULT) :
    FSResult × FileHandle × List NativeCall :=
  if st.mounted = false then (.notMounted, h, [])
  else if h.is_open then (.badFile, h, [])
  else if openRes = .FR_OK then
    (.OK, { is_open := true, fs_impl := some st.self },
      [.fOpenCall (FatFSImpl.convert_open_mode mode)])
  else (FatFSImpl.convert_fatfs_error openRes, h,
    [.fOpenCall (FatFSImpl.convert_open_mode mode)])

/-- Source `FatFSImpl::close` (FatFSImpl.cpp, 77-87): validate, close
natively, then clear the handle unconditionally and surface the translated
native result. -/
def FatFSImpl.close (st : FatState) (h : FileHandle) (closeRes : FRESULT) :
    FSResult × FileHandle × List NativeCall :=
  if h.is_open = false ∨ h.fs_impl ≠ some st.self then (.badFile, h, [])
  else (FatFSImpl.convert_fatfs_error closeRes,
    { is_open := false, fs_impl := none }, [.fCloseCall])

/-- Source `FatFSImpl::read` (FatFSImpl.cpp, 90-100); `br` is the native
transferred count, stored into the `bytes_read` out-parameter (third
component, `none` when the source leaves it untouched). -/
def FatFSImpl.read (st : FatState) (h : FileHandle) (readRes : FRESULT) (br : Nat) :
    FSResult × FileHandle × Option Nat × List NativeCall :=
  if h.is_open = false ∨ h.fs_impl ≠ some st.self then (.badFile, h, none, [])
  else (FatFSImpl.convert_fatfs_error readRes, h, some br, [.fReadCall])

/-- Source `FatFSImpl::write` (FatFSImpl.cpp, 103-113). -/
def FatFSImpl.write (st : FatState) (h : FileHandle) (writeRes : FRESULT) (bw : Nat) :
    FSResult × FileHandle × Option Nat × List NativeCall :=
  if h.is_open = false ∨ h.fs_impl ≠ some st.self then (.badFile, h, none, [])
  else (FatFSImpl.convert_fatfs_error writeRes, h, some bw, [.fWriteCall])

/-- Source `FatFSImpl::seek` (FatFSImpl.cpp, 116-154).  `pos` and `size` are
the values `f_tell` and `f_size` read off the native file object (`FSIZE_t`,
an unsigned 32-bit integer here, so they are below `2^32` and additions wrap
modulo `2^32`); `offset` is the signed 32-bit portable offset.  The computed
absolute target is recorded in the `fLseekCall` trace entry, and `lseekRes`
is the native `f_lseek` result. -/
def FatFSImpl.seek (st : FatState) (h : FileHandle) (pos size : Nat) (offset : Int)
    (origin : SeekOrigin) (lseekRes : FRESULT) : FSResult × List NativeCall :=
  if h.is_open = false ∨ h.fs_impl ≠ some st.self then (.badFile, [])
  else
    let new_pos : Nat :=
      match origin with
      | .SET => if offset ≥ 0 then offset.toNat else 0
      | .CUR =>
        if offset ≥ 0 then (pos + offset.toNat) % 2 ^ 32
        else
          let abs_offset := (-offset).toNat
          if pos ≥ abs_offset then pos - abs_offset else 0
      | .END =>
        if offset ≥ 0 then (size + offset.toNat) % 2 ^ 32
        else
          let abs_offset := (-offset).toNat
          if size ≥ abs_offset then size - abs_offset else 0
    (FatFSImpl.convert_fatfs_error lseekRes, [.fLseekCall new_pos])

/-- Source `FatFSImpl::tell` (FatFSImpl.cpp, 157-164); `pos` is the value
`f_tell` reads off the native file object (a field read, not a native call). -/
def FatFSImpl.tell (st : FatState) (h : FileHandle) (pos : Nat) :
    FSResult × Option Nat × List NativeCall :=
  if h.is_open = false ∨ h.fs_impl ≠ some st.self then (.badFile, none, [])
  else (.OK, some (pos % 2 ^ 32), [.fTellCall])

/-- Source `FatFSImpl::sync` (FatFSImpl.cpp, 167-174). -/
def FatFSImpl.sync (st : FatState) (h : FileHandle) (syncRes : FRESULT) :
    FSResult × List NativeCall :=
  if h.is_open = false ∨ h.fs_impl ≠ some st.self then (.badFile, [])
  else (FatFSImpl.convert_fatfs_error syncRes, [.fSyncCall])

/-- Source `FatFSImpl::truncate` (FatFSImpl.cpp, 177-203): save the current
position `pos` (read via `f_tell`), seek to the target `size`, truncate
natively, and restore `pos` exactly when `pos ≤ size`; the restoring
`f_lseek`'s own result is discarded by the source.  `seekRes` and `truncRes`
are the native results of the first `f_lseek` and of `f_truncate`. -/
def FatFSImpl.truncate (st : FatState) (h : FileHandle) (pos : Nat) (size : Nat)
    (seekRes truncRes : FRESULT) : FSResult × List NativeCall :=
  if h.is_open = false ∨ h.fs_impl ≠ some st.self then (.badFile, [])
  else if seekRes ≠ .FR_OK then
    (FatFSImpl.convert_fatfs_error seekRes, [.fLseekCall size])
  else if truncRes ≠ .FR_OK then
    (FatFSImpl.convert_fatfs_error truncRes, [.fLseekCall size, .fTruncateCall])
  else if pos ≤ size then
    (.OK, [.fLseekCall size, .fTruncateCall, .fLseekCall pos])
  else (.OK, [.fLseekCall size, .fTruncateCall])

/-- Source `FatFSImpl::opendir` (FatFSImpl.cpp, 280-298). -/
def FatFSImpl.opendir (st : FatState) (d : DirHandle) (openRes : FRESULT) :
    FSResult × DirHandle × List NativeCall :=
  if st.mounted = false then (.notMounted, d, [])
  else if d.is_open then (.badFile, d, [])
  else if openRes = .FR_OK then
    (.OK, { is_open := true, fs_impl := some st.self }, [.fOpendirCall])
  else (FatFSImpl.convert_fatfs_error openRes, d, [.fOpendirCall])

/-- Source `FatFSImpl::closedir` (FatFSImpl.cpp, 301-311): validate, close
natively, clear the handle unconditionally, surface the translated result. -/
def FatFSImpl.closedir (st : FatState) (d : DirHandle) (closeRes : FRESULT) :
    FSResult × DirHandle × List NativeCall :=
  if d.is_open = false ∨ d.fs_impl ≠ some st.self then (.badFile, d, [])
  else (FatFSImpl.convert_fatfs_error closeRes,
    { is_open := false, fs_impl := none }, [.fClosedirCall])

/-- Source `FatFSImpl::readdir` (FatFSImpl.cpp, 314-340); on native success
the source returns OK for both a real entry and the empty-name end sentinel,
which coincides with translating the native result.  Entry contents are
abstracted away. -/
def FatFSImpl.readdir (st : FatState) (d : DirHandle) (readRes : FRESULT) :
    FSResult × List NativeCall :=
  if d.is_open = false ∨ d.fs_impl ≠ some st.self then (.badFile, [])
  else (FatFSImpl.convert_fatfs_error readRes, [.fReaddirCall])

/-- Source `FatFSImpl::rewinddir` (FatFSImpl.cpp, 343-350). -/
def FatFSImpl.rewinddir (st : FatState) (d : DirHandle) (rewindRes : FRESULT) :
    FSResult × List NativeCall :=
  if d.is_open = false ∨ d.fs_impl ≠ some st.self then (.badFile, [])
  else (FatFSImpl.convert_fatfs_error rewindRes, [.fRewinddirCall])

/-- The littlefs error translation never returns OK for a non-OK native
code. -/
theorem convert_lfs_error_ne_OK (e : Int) (hx : e ≠ LFS_ERR_OK) :
    LittleFSImpl.convert_lfs_error e ≠ .OK := by
  unfold LittleFSImpl.convert_lfs_error
  rw [if_neg hx]
  by_cases h2 : e = LFS_ERR_IO_c
  · rw [if_pos h2]; exact fun h => FSResult.noConfusion h
  rw [if_neg h2]
  by_cases h3 : e = LFS_ERR_CORRUPT
  · rw [if_pos h3]; exact fun h => FSResult.noConfusion h
  rw [if_neg h3]
  by_cases h4 : e = LFS_ERR_NOENT
  · rw [if_pos h4]; exact fun h => FSResult.noConfusion h
  rw [if_neg h4]
  by_cases h5 : e = LFS_ERR_EXIST
  · rw [if_pos h5]; exact fun h => FSResult.noConfusion h
  rw [if_neg h5]
  by_cases h6 : e = LFS_ERR_NOTDIR
  · rw [if_pos h6]; exact fun h => FSResult.noConfusion h
  rw [if_neg h6]
  by_cases h7 : e = LFS_ERR_ISDIR
  · rw [if_pos h7]; exact fun h => FSResult.noConfusion h
  rw [if_neg h7]
  by_cases h8 : e = LFS_ERR_NOTEMPTY
  · rw [if_pos h8]; exact fun h => FSResult.noConfusion h
  rw [if_neg h8]
  by_cases h9 : e = LFS_ERR_BADF
  · rw [if_pos h9]; exact fun h => FSResult.noConfusion h
  rw [if_neg h9]
  by_cases h10 : e = LFS_ERR_FBIG
  · rw [if_pos h10]; exact fun h => FSResult.noConfusion h
  rw [if_neg h10]
  by_cases h11 : e = LFS_ERR_NOSPC
  · rw [if_pos h11]; exact fun h => FSResult.noConfusion h
  rw [if_neg h11]
  by_cases h12 : e = LFS_ERR_NOMEM
  · rw [if_pos h12]; exact fun h => FSResult.noConfusion h
  rw [if_neg h12]
  by_cases h13 : e = LFS_ERR_INVAL
  · rw [if_pos h13]; exact fun h => FSResult.noConfusion h
  rw [if_neg h13]
  exact fun h => FSResult.noConfusion h

/-- The littlefs error translation returns OK exactly for the native OK
code. -/
theorem convert_lfs_error_eq_OK (e : Int) :
    LittleFSImpl.convert_lfs_error e = .OK ↔ e = LFS_ERR_OK := by
  constructor
  · intro hOK
    by_contra hne
    exact convert_lfs_error_ne_OK e hne hOK
  · intro he
    unfold LittleFSImpl.convert_lfs_error
    rw [if_pos he]

/-- Every native littlefs code outside the thirteen explicitly mapped ones
falls to the switch default, `ERROR_IO`. -/
theorem convert_lfs_error_unmapped (e : Int)
    (he : e ∉ ([LFS_ERR_OK, LFS_ERR_IO_c, LFS_ERR_CORRUPT, LFS_ERR_NOENT, LFS_ERR_EXIST,
      LFS_ERR_NOTDIR, LFS_ERR_ISDIR, LFS_ERR_NOTEMPTY, LFS_ERR_BADF, LFS_ERR_FBIG,
      LFS_ERR_NOSPC, LFS_ERR_NOMEM, LFS_ERR_INVAL] : List Int)) :
    LittleFSImpl.convert_lfs_error e = .ioError := by
  simp only [List.mem_cons, List.not_mem_nil, or_false, not_or] at he
  obtain ⟨h1, h2, h3, h4, h5, h6, h7, h8, h9, h10, h11, h12, h13⟩ := he
  unfold LittleFSImpl.convert_lfs_error
  rw [if_neg h1, if_neg h2, if_neg h3, if_neg h4, if_neg h5, if_neg h6, if_neg h7,
    if_neg h8, if_neg h9, if_neg h10, if_neg h11, if_neg h12, if_neg h13]

/-- The FatFS error translation returns OK exactly for the native `FR_OK`
code. -/
theorem convert_fatfs_error_eq_OK (fr : FRESULT) :
    FatFSImpl.convert_fatfs_error fr = .OK ↔ fr = .FR_OK := by
  cases fr <;> decide

/-- Claim C1: for every file or directory handle and both backend adapters,
every handle-taking operation (close, read, write, seek, tell, sync,
truncate, closedir, readdir, rewinddir) checks, before touching any backend
state, that the handle's `is_open` flag is set and its stored `fs_impl`
identity equals the adapter instance performing the operation, and returns
`ERROR_BAD_FILE` when either check fails: under the failed check each
operation returns the bad-handle result, performs no native call and leaves
the handle (and every out-parameter) untouched, for any adapter state —
hence under any call ordering, covering unopened handles, already-closed
handles and handles owned by a different adapter instance. -/
theorem C1_handle_ops_check_before_backend
    (st : LfsState) (stf : FatState) (h : FileHandle) (d : DirHandle)
    (r : Int) (fr : FRESULT) (sz pos fsz br : Nat) (off : Int) (og : SeekOrigin)
    (hb : h.is_open = false ∨ h.fs_impl ≠ some st.self)
    (hbf : h.is_open = false ∨ h.fs_impl ≠ some stf.self)
    (hd : d.is_open = false ∨ d.fs_impl ≠ some st.self)
    (hdf : d.is_open = false ∨ d.fs_impl ≠ some stf.self) :
    LittleFSImpl.close st h r = (.badFile, h, []) ∧
    LittleFSImpl.read st h r = (.badFile, h, none, []) ∧
    LittleFSImpl.write st h r = (.badFile, h, none, []) ∧
    LittleFSImpl.seek st h og r = (.badFile, []) ∧
    LittleFSImpl.tell st h r = (.badFile, none, []) ∧
    LittleFSImpl.sync st h r = (.badFile, []) ∧
    LittleFSImpl.truncate st h sz r = (.badFile, []) ∧
    LittleFSImpl.closedir st d r = (.badFile, d, []) ∧
    LittleFSImpl.readdir st d r = (.badFile, []) ∧
    LittleFSImpl.rewinddir st d r = (.badFile, []) ∧
    FatFSImpl.close stf h fr = (.badFile, h, []) ∧
    FatFSImpl.read stf h fr br = (.badFile, h, none, []) ∧
    FatFSImpl.write stf h fr br = (.badFile, h, none, []) ∧
    FatFSImpl.seek stf h pos fsz off og fr = (.badFile, []) ∧
    FatFSImpl.tell stf h pos = (.badFile, none, []) ∧
    FatFSImpl.sync stf h fr = (.badFile, []) ∧
    FatFSImpl.truncate stf h pos sz fr fr = (.badFile, []) ∧
    FatFSImpl.closedir stf d fr = (.badFile, d, []) ∧
    FatFSImpl.readdir stf d fr = (.badFile, []) ∧
    FatFSImpl.rewinddir stf d fr = (.badFile, []) := by
  refine ⟨?_, ?_, ?_, ?_, ?_, ?_, ?_, ?_, ?_, ?_, ?_, ?_, ?_, ?_, ?_, ?_, ?_, ?_, ?_, ?_⟩
  · unfold LittleFSImpl.close; rw [if_pos hb]
  · unfold LittleFSImpl.read; rw [if_pos hb]
  · unfold LittleFSImpl.write; rw [if_pos hb]
  · unfold LittleFSImpl.seek; rw [if_pos hb]
  · unfold LittleFSImpl.tell; rw [if_pos hb]
  · unfold LittleFSImpl.sync; rw [if_pos hb]
  · unfold LittleFSImpl.truncate; rw [if_pos hb]
  · unfold LittleFSImpl.closedir; rw [if_pos hd]
  · unfold LittleFSImpl.readdir; rw [if_pos hd]
  · unfold LittleFSImpl.rewinddir; rw [if_pos hd]
  · unfold FatFSImpl.close; rw [if_pos hbf]
  · unfold FatFSImpl.read; rw [if_pos hbf]
  · unfold FatFSImpl.write; rw [if_pos hbf]
  · unfold FatFSImpl.seek; rw [if_pos hbf]
  · unfold FatFSImpl.tell; rw [if_pos hbf]
  · unfold FatFSImpl.sync; rw [if_pos hbf]
  · unfold FatFSImpl.truncate; rw [if_pos hbf]
  · unfold FatFSImpl.closedir; rw [if_pos hdf]
  · unfold FatFSImpl.readdir; rw [if_pos hdf]
  · unfold FatFSImpl.rewinddir; rw [if_pos hdf]

/-- Claim C1 witness: the checks fire at a concrete unopened handle on a
concrete adapter instance. -/
theorem C1_handle_ops_check_before_backend_witness :
    LittleFSImpl.close ⟨1, none, false⟩ ⟨false, none⟩ 0 =
      (.badFile, ⟨false, none⟩, []) :=
  (C1_handle_ops_check_before_backend ⟨1, none, false⟩ ⟨2, false⟩ ⟨false, none⟩
    ⟨false, none⟩ 0 .FR_OK 0 0 0 0 0 .SET (Or.inl rfl) (Or.inl rfl) (Or.inl rfl)
    (Or.inl rfl)).1

/-- Claim C2 counterexample: on a flash-log adapter constructed with a null
configuration (and hence never mounted), `remove` fails with
`ERROR_NOT_MOUNTED`, not with the invalid-argument result `ERROR_INVALID`
the claim requires of every operation. -/
theorem C2_null_config_counterexample :
    LittleFSImpl.remove ⟨1, none, false⟩ 0 = (.notMounted, []) ∧
    LittleFSImpl.unmount ⟨1, none, false⟩ 0 = (.OK, ⟨1, none, false⟩, []) ∧
    FSResult.notMounted ≠ FSResult.invalid ∧ FSResult.OK ≠ FSResult.invalid := by
  decide

/-- Claim C2 (amended): when the flash-log adapter is constructed with a
null configuration pointer it can never become mounted, and every operation
fails without crashing and without any native call: `mount` fails with
`ERROR_INVALID`, `unmount` is the no-op success, the path-taking operations
(`open`, `remove`, `rename`, `stat`, `mkdir`, `rmdir`, `opendir`) and the
space queries fail with `ERROR_NOT_MOUNTED` (the space queries completing
without dereferencing the null configuration), and the handle-taking
operations fail with `ERROR_BAD_FILE` since no handle can carry this
adapter's identity stamp; the adapter is left unmounted by all of them. -/
theorem C2_null_config_amended
    (st : LfsState) (h : FileHandle) (d : DirHandle) (r r2 r3 : Int)
    (mode sz : Nat) (og : SeekOrigin)
    (hc : st.config = none) (hm : st.mounted = false)
    (hh : h.fs_impl ≠ some st.self) (hd : d.fs_impl ≠ some st.self) :
    LittleFSImpl.mount st r r2 r3 = (.invalid, st, []) ∧
    LittleFSImpl.unmount st r = (.OK, st, []) ∧
    LittleFSImpl.open st h mode r = (.notMounted, h, []) ∧
    LittleFSImpl.remove st r = (.notMounted, []) ∧
    LittleFSImpl.rename st r = (.notMounted, []) ∧
    LittleFSImpl.stat st r = (.notMounted, []) ∧
    LittleFSImpl.mkdir st r = (.notMounted, []) ∧
    LittleFSImpl.rmdir st r = (.notMounted, []) ∧
    LittleFSImpl.opendir st d r = (.notMounted, d, []) ∧
    LittleFSImpl.get_free_space st r = some (.notMounted, none, []) ∧
    LittleFSImpl.get_total_space st = some (.notMounted, none, []) ∧
    LittleFSImpl.read st h r = (.badFile, h, none, []) ∧
    LittleFSImpl.write st h r = (.badFile, h, none, []) ∧
    LittleFSImpl.close st h r = (.badFile, h, []) ∧
    LittleFSImpl.seek st h og r = (.badFile, []) ∧
    LittleFSImpl.tell st h r = (.badFile, none, []) ∧
    LittleFSImpl.sync st h r = (.badFile, []) ∧
    LittleFSImpl.truncate st h sz r = (.badFile, []) ∧
    LittleFSImpl.closedir st d r = (.badFile, d, []) ∧
    LittleFSImpl.readdir st d r = (.badFile, []) ∧
    LittleFSImpl.rewinddir st d r = (.badFile, []) := by
  refine ⟨?_, ?_, ?_, ?_, ?_, ?_, ?_, ?_, ?_, ?_, ?_, ?_, ?_, ?_, ?_, ?_, ?_, ?_,
    ?_, ?_, ?_⟩
  · unfold LittleFSImpl.mount; simp [hm, hc]
  · unfold LittleFSImpl.unmount; rw [if_pos hm]
  · unfold LittleFSImpl.open; rw [if_pos hm]
  · unfold LittleFSImpl.remove; rw [if_pos hm]
  · unfold LittleFSImpl.rename; rw [if_pos hm]
  · unfold LittleFSImpl.stat; rw [if_pos hm]
  · unfold LittleFSImpl.mkdir; rw [if_pos hm]
  · unfold LittleFSImpl.rmdir; rw [if_pos hm]
  · unfold LittleFSImpl.opendir; rw [if_pos hm]
  · unfold LittleFSImpl.get_free_space; rw [if_pos hm]
  · unfold LittleFSImpl.get_total_space; rw [if_pos hm]
  · unfold LittleFSImpl.read; rw [if_pos (Or.inr hh)]
  · unfold LittleFSImpl.write; rw [if_pos (Or.inr hh)]
  · unfold LittleFSImpl.close; rw [if_pos (Or.inr hh)]
  · unfold LittleFSImpl.seek; rw [if_pos (Or.inr hh)]
  · unfold LittleFSImpl.tell; rw [if_pos (Or.inr hh)]
  · unfold LittleFSImpl.sync; rw [if_pos (Or.inr hh)]
  · unfold LittleFSImpl.truncate; rw [if_pos (Or.inr hh)]
  · unfold LittleFSImpl.closedir; rw [if_pos (Or.inr hd)]
  · unfold LittleFSImpl.readdir; rw [if_pos (Or.inr hd)]
  · unfold LittleFSImpl.rewinddir; rw [if_pos (Or.inr hd)]

/-- Claim C2 witness: the amended behavior at a concrete null-configuration
adapter. -/
theorem C2_null_config_amended_witness :
    LittleFSImpl.mount ⟨1, none, false⟩ 0 0 0 = (.invalid, ⟨1, none, false⟩, []) :=
  (C2_null_config_amended ⟨1, none, false⟩ ⟨false, none⟩ ⟨false, none⟩ 0 0 0 0 0
    .SET rfl rfl (by simp) (by simp)).1

/-- Claim C3: for the flash-log adapter in the unmounted state with a
non-null configuration, mount attempts the native mount; exactly when the
native mount fails with the native corrupt code the adapter formats the
volume once and retries the mount once; any other native mount failure, and
any failure of the format or of the retried mount, is translated and
returned directly (never as OK) with the adapter left unmounted; on success
— clean or after reformat — the adapter becomes mounted and returns OK,
indistinguishably. -/
theorem C3_mount_self_heals_on_corrupt
    (st : LfsState) (c : LfsConfig) (r rf rr : Int)
    (hm : st.mounted = false) (hc : st.config = some c) :
    (r = LFS_ERR_OK →
      LittleFSImpl.mount st r rf rr = (.OK, { st with mounted := true }, [.lfsMountCall])) ∧
    (r = LFS_ERR_CORRUPT → rf = LFS_ERR_OK → rr = LFS_ERR_OK →
      LittleFSImpl.mount st r rf rr =
        (.OK, { st with mounted := true }, [.lfsMountCall, .lfsFormatCall, .lfsMountCall])) ∧
    (r = LFS_ERR_CORRUPT → rf ≠ LFS_ERR_OK →
      LittleFSImpl.mount st r rf rr =
        (LittleFSImpl.convert_lfs_error rf, st, [.lfsMountCall, .lfsFormatCall]) ∧
      LittleFSImpl.convert_lfs_error rf ≠ .OK) ∧
    (r = LFS_ERR_CORRUPT → rf = LFS_ERR_OK → rr ≠ LFS_ERR_OK →
      LittleFSImpl.mount st r rf rr =
        (LittleFSImpl.convert_lfs_error rr, st, [.lfsMountCall, .lfsFormatCall, .lfsMountCall]) ∧
      LittleFSImpl.convert_lfs_error rr ≠ .OK) ∧
    (r ≠ LFS_ERR_OK → r ≠ LFS_ERR_CORRUPT →
      LittleFSImpl.mount st r rf rr = (LittleFSImpl.convert_lfs_error r, st, [.lfsMountCall]) ∧
      LittleFSImpl.convert_lfs_error r ≠ .OK) ∧
    (NativeCall.lfsFormatCall ∈ (LittleFSImpl.mount st r rf rr).2.2 ↔ r = LFS_ERR_CORRUPT) := by
  unfold LittleFSImpl.mount
  simp only [hm, Bool.false_eq_true, if_false, hc, reduceCtorEq, if_neg]
  refine ⟨?_, ?_, ?_, ?_, ?_, ?_⟩
  · intro h1; rw [if_pos h1]
  · intro h1 h2 h3
    rw [if_neg (by rw [h1]; decide), if_pos h1, if_pos h2, if_pos h3]
  · intro h1 h2
    rw [if_neg (by rw [h1]; decide), if_pos h1, if_neg h2]
    exact ⟨rfl, convert_lfs_error_ne_OK rf h2⟩
  · intro h1 h2 h3
    rw [if_neg (by rw [h1]; decide), if_pos h1, if_pos h2, if_neg h3]
    exact ⟨rfl, convert_lfs_error_ne_OK rr h3⟩
  · intro h1 h2
    rw [if_neg h1, if_neg h2]
    exact ⟨rfl, convert_lfs_error_ne_OK r h1⟩
  · by_cases h1 : r = LFS_ERR_OK
    · rw [if_pos h1]
      simp [h1]
      decide
    rw [if_neg h1]
    by_cases h2 : r = LFS_ERR_CORRUPT
    · rw [if_pos h2]
      by_cases h3 : rf = LFS_ERR_OK
      · rw [if_pos h3]
        by_cases h4 : rr = LFS_ERR_OK
        · rw [if_pos h4]; simp [h2]
        · rw [if_neg h4]; simp [h2]
      · rw [if_neg h3]; simp [h2]
    · rw [if_neg h2]; simp [h2]

/-- Claim C3 witness: a corrupt first mount followed by a successful format
and remount yields OK with the adapter mounted, after the trace
mount-format-mount. -/
theorem C3_mount_self_heals_on_corrupt_witness :
    LittleFSImpl.mount ⟨1, some ⟨16, 512⟩, false⟩ LFS_ERR_CORRUPT LFS_ERR_OK LFS_ERR_OK =
      (.OK, ⟨1, some ⟨16, 512⟩, true⟩, [.lfsMountCall, .lfsFormatCall, .lfsMountCall]) :=
  (C3_mount_self_heals_on_corrupt ⟨1, some ⟨16, 512⟩, false⟩ ⟨16, 512⟩
    LFS_ERR_CORRUPT LFS_ERR_OK LFS_ERR_OK rfl rfl).2.1 rfl rfl rfl

/-- Claim C4 counterexample: for the intent Write+Create (Create without
Exclusive, no Truncate bit), the FAT-style translator produces
`FA_CREATE_ALWAYS` — the native create-or-truncate-existing mode, which
truncates an existing file although Truncate is absent — while the
flash-log translator produces the plain native create flag whose flag set
does not truncate.  The claim attributes each behavior to the other
backend. -/
theorem C4_create_translation_counterexample :
    (OpenMode.WRITE ||| OpenMode.CREATE) &&& OpenMode.TRUNC = 0 ∧
    (OpenMode.WRITE ||| OpenMode.CREATE) &&& OpenMode.EXCL = 0 ∧
    FatFSImpl.convert_open_mode (OpenMode.WRITE ||| OpenMode.CREATE) =
      FA_WRITE ||| FA_CREATE_ALWAYS ∧
    fatModeTruncatesExisting
      (FatFSImpl.convert_open_mode (OpenMode.WRITE ||| OpenMode.CREATE)) = true ∧
    LittleFSImpl.convert_open_mode (OpenMode.WRITE ||| OpenMode.CREATE) =
      LFS_O_WRONLY ||| LFS_O_CREAT ∧
    lfsModeTruncatesExisting
      (LittleFSImpl.convert_open_mode (OpenMode.WRITE ||| OpenMode.CREATE)) = false := by
  decide

set_option maxRecDepth 1000000 in
set_option synthInstance.maxSize 1000 in
/-- Claim C4 (amended): for every OpenIntent containing both Create and
Exclusive, both translators produce the native exclusive-create
(create-must-not-exist) flag (`LFS_O_CREAT ||| LFS_O_EXCL`, resp.
`FA_CREATE_NEW`, never `FA_CREATE_ALWAYS`); for every OpenIntent containing
Create without Exclusive, the flash-log backend's translator produces the
plain native create flag, truncating exactly when the Truncate bit is also
present in the intent, while the FAT-style backend's translator produces
the native create-or-truncate-existing flag `FA_CREATE_ALWAYS` (truncating
an existing file whether or not Truncate is present). -/
theorem C4_create_translation_amended (m : Nat) (hlt : m < 256)
    (hc : m &&& OpenMode.CREATE ≠ 0) :
    (m &&& OpenMode.EXCL ≠ 0 →
      LittleFSImpl.convert_open_mode m &&& LFS_O_CREAT ≠ 0 ∧
      LittleFSImpl.convert_open_mode m &&& LFS_O_EXCL ≠ 0 ∧
      FatFSImpl.convert_open_mode m &&& FA_CREATE_NEW ≠ 0 ∧
      FatFSImpl.convert_open_mode m &&& FA_CREATE_ALWAYS = 0) ∧
    (m &&& OpenMode.EXCL = 0 →
      LittleFSImpl.convert_open_mode m &&& LFS_O_CREAT ≠ 0 ∧
      (lfsModeTruncatesExisting (LittleFSImpl.convert_open_mode m) = true ↔
        m &&& OpenMode.TRUNC ≠ 0) ∧
      FatFSImpl.convert_open_mode m &&& FA_CREATE_ALWAYS ≠ 0 ∧
      fatModeTruncatesExisting (FatFSImpl.convert_open_mode m) = true ∧
      FatFSImpl.convert_open_mode m &&& FA_CREATE_NEW = 0) := by
  revert hc
  revert hlt
  revert m
  decide

/-- Claim C4 witness: the amended exclusive-create behavior at the concrete
intent Write+Create+Exclusive. -/
theorem C4_create_translation_amended_witness :
    LittleFSImpl.convert_open_mode 14 &&& LFS_O_CREAT ≠ 0 ∧
    LittleFSImpl.convert_open_mode 14 &&& LFS_O_EXCL ≠ 0 ∧
    FatFSImpl.convert_open_mode 14 &&& FA_CREATE_NEW ≠ 0 ∧
    FatFSImpl.convert_open_mode 14 &&& FA_CREATE_ALWAYS = 0 :=
  (C4_create_translation_amended 14 (by decide) (by decide)).1 (by decide)

/-- Claim C5: for every open FAT-backend file handle, seek with from-current
origin computes the target as the queried current position plus the signed
offset, and seek with from-end origin as the queried file size plus the
offset; whenever the signed result would be negative the target is clamped
to position 0; in every case the operation proceeds with a native absolute
seek to that target (whose translated result it returns) rather than
returning an error.  The arithmetic is the native unsigned 32-bit
arithmetic, so position, size and the sums are taken below `2^32`. -/
theorem C5_fat_seek_cur_end_clamps
    (st : FatState) (h : FileHandle) (pos size : Nat) (off : Int) (fr : FRESULT)
    (ho : h.is_open = true) (hw : h.fs_impl = some st.self)
    (hpos : (pos : Int) + off < 2 ^ 32) (hsize : (size : Int) + off < 2 ^ 32) :
    FatFSImpl.seek st h pos size off .CUR fr =
      (FatFSImpl.convert_fatfs_error fr,
        [.fLseekCall (if 0 ≤ (pos : Int) + off then ((pos : Int) + off).toNat else 0)]) ∧
    FatFSImpl.seek st h pos size off .END fr =
      (FatFSImpl.convert_fatfs_error fr,
        [.fLseekCall (if 0 ≤ (size : Int) + off then ((size : Int) + off).toNat else 0)]) := by
  have hg : ¬(h.is_open = false ∨ h.fs_impl ≠ some st.self) := by
    simp [ho, hw]
  have h32i : (2 : Int) ^ 32 = 4294967296 := by norm_num
  rw [h32i] at hpos hsize
  constructor
  · unfold FatFSImpl.seek
    rw [if_neg hg]
    show (FatFSImpl.convert_fatfs_error fr,
      [NativeCall.fLseekCall (if off ≥ 0 then (pos + off.toNat) % 2 ^ 32
        else if pos ≥ (-off).toNat then pos - (-off).toNat else 0)]) = _
    have harith : (if off ≥ 0 then (pos + off.toNat) % 2 ^ 32
        else if pos ≥ (-off).toNat then pos - (-off).toNat else 0)
        = (if 0 ≤ (pos : Int) + off then ((pos : Int) + off).toNat else 0) := by
      have h32 : (2 : Nat) ^ 32 = 4294967296 := by norm_num
      rw [h32]
      split_ifs <;> omega
    rw [harith]
  · unfold FatFSImpl.seek
    rw [if_neg hg]
    show (FatFSImpl.convert_fatfs_error fr,
      [NativeCall.fLseekCall (if off ≥ 0 then (size + off.toNat) % 2 ^ 32
        else if size ≥ (-off).toNat then size - (-off).toNat else 0)]) = _
    have harith : (if off ≥ 0 then (size + off.toNat) % 2 ^ 32
        else if size ≥ (-off).toNat then size - (-off).toNat else 0)
        = (if 0 ≤ (size : Int) + off then ((size : Int) + off).toNat else 0) := by
      have h32 : (2 : Nat) ^ 32 = 4294967296 := by norm_num
      rw [h32]
      split_ifs <;> omega
    rw [harith]

/-- Claim C5 witness: seeking 7 back from position 5 clamps the native
absolute seek target to 0. -/
theorem C5_fat_seek_cur_end_clamps_witness :
    FatFSImpl.seek ⟨1, true⟩ ⟨true, some 1⟩ 5 10 (-7) .CUR .FR_OK =
      (.OK, [.fLseekCall 0]) := by
  have hx := (C5_fat_seek_cur_end_clamps ⟨1, true⟩ ⟨true, some 1⟩ 5 10 (-7) .FR_OK
    rfl rfl (by norm_num) (by norm_num)).1
  simpa using hx

/-- Claim C6: for every open FAT-backend file handle, truncate to size S
saves the current position, seeks to S, invokes the native truncate, and
then restores the saved position exactly when that saved position is at
most S (otherwise the position is left at the truncation point, with no
restoring seek in the trace); a failure of the initial seek or of the
native truncate is translated and returned (never as OK) with no further
native calls. -/
theorem C6_fat_truncate_restores_position
    (st : FatState) (h : FileHandle) (pos size : Nat) (sr tr : FRESULT)
    (ho : h.is_open = true) (hw : h.fs_impl = some st.self) :
    (sr ≠ .FR_OK →
      FatFSImpl.truncate st h pos size sr tr =
        (FatFSImpl.convert_fatfs_error sr, [.fLseekCall size]) ∧
      FatFSImpl.convert_fatfs_error sr ≠ .OK) ∧
    (sr = .FR_OK → tr ≠ .FR_OK →
      FatFSImpl.truncate st h pos size sr tr =
        (FatFSImpl.convert_fatfs_error tr, [.fLseekCall size, .fTruncateCall]) ∧
      FatFSImpl.convert_fatfs_error tr ≠ .OK) ∧
    (sr = .FR_OK → tr = .FR_OK → pos ≤ size →
      FatFSImpl.truncate st h pos size sr tr =
        (.OK, [.fLseekCall size, .fTruncateCall, .fLseekCall pos])) ∧
    (sr = .FR_OK → tr = .FR_OK → size < pos →
      FatFSImpl.truncate st h pos size sr tr =
        (.OK, [.fLseekCall size, .fTruncateCall])) := by
  have hg : ¬(h.is_open = false ∨ h.fs_impl ≠ some st.self) := by
    simp [ho, hw]
  unfold FatFSImpl.truncate
  rw [if_neg hg]
  refine ⟨?_, ?_, ?_, ?_⟩
  · intro hsr
    rw [if_pos hsr]
    exact ⟨rfl, by rw [(convert_fatfs_error_eq_OK sr).ne]; exact hsr⟩
  · intro hsr htr
    rw [if_neg (by simp [hsr]), if_pos htr]
    exact ⟨rfl, by rw [(convert_fatfs_error_eq_OK tr).ne]; exact htr⟩
  · intro hsr htr hle
    rw [if_neg (by simp [hsr]), if_neg (by simp [htr]), if_pos hle]
  · intro hsr htr hlt
    rw [if_neg (by simp [hsr]), if_neg (by simp [htr]), if_neg (by omega)]

/-- Claim C6 witness: a successful truncate from position 9 to size 4 does
not restore the out-of-bounds position. -/
theorem C6_fat_truncate_restores_position_witness :
    FatFSImpl.truncate ⟨1, true⟩ ⟨true, some 1⟩ 9 4 .FR_OK .FR_OK =
      (.OK, [.fLseekCall 4, .fTruncateCall]) :=
  (C6_fat_truncate_restores_position ⟨1, true⟩ ⟨true, some 1⟩ 9 4 .FR_OK .FR_OK
    rfl rfl).2.2.2 rfl rfl (by norm_num)

/-- Claim C7: both error-translation functions are total over their native
status type (littlefs statuses are signed integers, FatFS statuses the
closed twenty-code enumeration) and map every native code to exactly one
PortableResult: native OK maps to OK and nothing else maps to OK,
resource-exhaustion codes (FatFS out-of-core and too-many-open-files,
littlefs out-of-memory) map to no-memory, permission, write-protection and
locked conditions map to invalid-argument, and every native code with no
explicit mapping falls to the default, the I/O kind. -/
theorem C7_error_translation_total :
    (LittleFSImpl.convert_lfs_error LFS_ERR_OK = .OK) ∧
    (∀ e : Int, LittleFSImpl.convert_lfs_error e = .OK ↔ e = LFS_ERR_OK) ∧
    (LittleFSImpl.convert_lfs_error LFS_ERR_NOMEM = .noMem) ∧
    (∀ e : Int,
      e ∉ ([LFS_ERR_OK, LFS_ERR_IO_c, LFS_ERR_CORRUPT, LFS_ERR_NOENT, LFS_ERR_EXIST,
        LFS_ERR_NOTDIR, LFS_ERR_ISDIR, LFS_ERR_NOTEMPTY, LFS_ERR_BADF, LFS_ERR_FBIG,
        LFS_ERR_NOSPC, LFS_ERR_NOMEM, LFS_ERR_INVAL] : List Int) →
      LittleFSImpl.convert_lfs_error e = .ioError) ∧
    (∀ fr : FRESULT, FatFSImpl.convert_fatfs_error fr = .OK ↔ fr = .FR_OK) ∧
    (FatFSImpl.convert_fatfs_error .FR_NOT_ENOUGH_CORE = .noMem) ∧
    (FatFSImpl.convert_fatfs_error .FR_TOO_MANY_OPEN_FILES = .noMem) ∧
    (FatFSImpl.convert_fatfs_error .FR_DENIED = .invalid) ∧
    (FatFSImpl.convert_fatfs_error .FR_WRITE_PROTECTED = .invalid) ∧
    (FatFSImpl.convert_fatfs_error .FR_LOCKED = .invalid) :=
  ⟨rfl, convert_lfs_error_eq_OK, rfl, convert_lfs_error_unmapped,
    convert_fatfs_error_eq_OK, rfl, rfl, rfl, rfl, rfl⟩

/-- Claim C7 witness: the unmapped native littlefs code −1000 falls to the
I/O default. -/
theorem C7_error_translation_total_witness :
    LittleFSImpl.convert_lfs_error (-1000) = .ioError :=
  C7_error_translation_total.2.2.2.1 (-1000) (by decide)

/-- Claim C8: for every open handle owned by the invoked adapter instance
and for both backends, close and closedir clear the handle's open flag and
owning identity — making the slot reusable — even when the underlying
native close reports an error, and that error is still translated and
returned to the caller; consequently a second close of the same handle
returns bad-handle and leaves the handle closed. -/
theorem C8_close_clears_handle_even_on_error
    (st : LfsState) (stf : FatState) (h hf : FileHandle) (d df : DirHandle)
    (r : Int) (fr : FRESULT)
    (hho : h.is_open = true) (hhw : h.fs_impl = some st.self)
    (hdo : d.is_open = true) (hdw : d.fs_impl = some st.self)
    (hfo : hf.is_open = true) (hfw : hf.fs_impl = some stf.self)
    (hdfo : df.is_open = true) (hdfw : df.fs_impl = some stf.self) :
    (LittleFSImpl.close st h r =
      (LittleFSImpl.convert_lfs_error r, ⟨false, none⟩, [.lfsFileCloseCall]) ∧
      ∀ r2 : Int, LittleFSImpl.close st ⟨false, none⟩ r2 = (.badFile, ⟨false, none⟩, [])) ∧
    (LittleFSImpl.closedir st d r =
      (LittleFSImpl.convert_lfs_error r, ⟨false, none⟩, [.lfsDirCloseCall]) ∧
      ∀ r2 : Int, LittleFSImpl.closedir st ⟨false, none⟩ r2 = (.badFile, ⟨false, none⟩, [])) ∧
    (FatFSImpl.close stf hf fr =
      (FatFSImpl.convert_fatfs_error fr, ⟨false, none⟩, [.fCloseCall]) ∧
      ∀ fr2 : FRESULT, FatFSImpl.close stf ⟨false, none⟩ fr2 = (.badFile, ⟨false, none⟩, [])) ∧
    (FatFSImpl.closedir stf df fr =
      (FatFSImpl.convert_fatfs_error fr, ⟨false, none⟩, [.fClosedirCall]) ∧
      ∀ fr2 : FRESULT, FatFSImpl.closedir stf ⟨false, none⟩ fr2 = (.badFile, ⟨false, none⟩, [])) := by
  refine ⟨⟨?_, ?_⟩, ⟨?_, ?_⟩, ⟨?_, ?_⟩, ⟨?_, ?_⟩⟩
  · unfold LittleFSImpl.close; rw [if_neg (by simp [hho, hhw])]
  · intro r2; unfold LittleFSImpl.close; rw [if_pos (Or.inl rfl)]
  · unfold LittleFSImpl.closedir; rw [if_neg (by simp [hdo, hdw])]
  · intro r2; unfold LittleFSImpl.closedir; rw [if_pos (Or.inl rfl)]
  · unfold FatFSImpl.close; rw [if_neg (by simp [hfo, hfw])]
  · intro fr2; unfold FatFSImpl.close; rw [if_pos (Or.inl rfl)]
  · unfold FatFSImpl.closedir; rw [if_neg (by simp [hdfo, hdfw])]
  · intro fr2; unfold FatFSImpl.closedir; rw [if_pos (Or.inl rfl)]

/-- Claim C8 witness: closing a concrete open handle with a failing native
close (`LFS_ERR_IO`) clears it and surfaces `ERROR_IO`. -/
theorem C8_close_clears_handle_even_on_error_witness :
    LittleFSImpl.close ⟨1, none, true⟩ ⟨true, some 1⟩ (-5) =
      (.ioError, ⟨false, none⟩, [.lfsFileCloseCall]) := by
  have hx := (C8_close_clears_handle_even_on_error ⟨1, none, true⟩ ⟨2, true⟩
    ⟨true, some 1⟩ ⟨true, some 2⟩ ⟨true, some 1⟩ ⟨true, some 2⟩ (-5) .FR_OK
    rfl rfl rfl rfl rfl rfl rfl rfl).1.1
  simpa using hx

/-- Claim C9: for both backend adapters, unmount invoked in the unmounted
state returns OK, leaves the adapter unmounted and makes no native call,
and mount invoked in the already-mounted state returns OK, leaves the
adapter mounted and makes no native call — mount and unmount are
idempotent. -/
theorem C9_mount_unmount_idempotent
    (stu stm : LfsState) (stfu stfm : FatState) (r rf rr u : Int) (frm fru : FRESULT)
    (hm : stm.mounted = true) (hu : stu.mounted = false)
    (hfm : stfm.mounted = true) (hfu : stfu.mounted = false) :
    LittleFSImpl.mount stm r rf rr = (.OK, stm, []) ∧
    LittleFSImpl.unmount stu u = (.OK, stu, []) ∧
    FatFSImpl.mount stfm frm = (.OK, stfm, []) ∧
    FatFSImpl.unmount stfu fru = (.OK, stfu, []) := by
  refine ⟨?_, ?_, ?_, ?_⟩
  · unfold LittleFSImpl.mount; simp [hm]
  · unfold LittleFSImpl.unmount; rw [if_pos hu]
  · unfold FatFSImpl.mount; simp [hfm]
  · unfold FatFSImpl.unmount; rw [if_pos hfu]

/-- Claim C9 witness: idempotent mount on a concrete mounted flash-log
adapter. -/
theorem C9_mount_unmount_idempotent_witness :
    LittleFSImpl.mount ⟨1, none, true⟩ 0 0 0 = (.OK, ⟨1, none, true⟩, []) :=
  (C9_mount_unmount_idempotent ⟨1, none, false⟩ ⟨1, none, true⟩ ⟨2, false⟩
    ⟨2, true⟩ 0 0 0 0 .FR_OK .FR_OK rfl rfl rfl rfl).1

/-- Claim C10: for every open FAT-backend file handle, seek with from-start
origin and a negative offset clamps the target to position 0 and performs
the native absolute seek to 0 — returning its translated result rather
than an error — extending to the from-start origin the clamping the spec
promises for from-current and from-end. -/
theorem C10_fat_seek_set_negative_clamps
    (st : FatState) (h : FileHandle) (pos size : Nat) (off : Int) (fr : FRESULT)
    (ho : h.is_open = true) (hw : h.fs_impl = some st.self) (hneg : off < 0) :
    FatFSImpl.seek st h pos size off .SET fr =
      (FatFSImpl.convert_fatfs_error fr, [.fLseekCall 0]) := by
  unfold FatFSImpl.seek
  rw [if_neg (by simp [ho, hw])]
  simp only
  rw [if_neg (by omega)]

/-- Claim C10 witness: from-start seek to offset −3 performs a native seek
to 0. -/
theorem C10_fat_seek_set_negative_clamps_witness :
    FatFSImpl.seek ⟨1, true⟩ ⟨true, some 1⟩ 5 10 (-3) .SET .FR_OK =
      (.OK, [.fLseekCall 0]) := by
  have hx := C10_fat_seek_set_negative_clamps ⟨1, true⟩ ⟨true, some 1⟩ 5 10 (-3)
    .FR_OK rfl rfl (by norm_num)
  simpa using hx

end EmbeddedFS
